import Mathlib

/-!
# carbon-c-relay: the process entry point (`relay.c`)

A shallow embedding of `relay.c`: option parsing, the start-up sequence, the
wait loop and the shutdown sequence of `main`, together with `do_usage`,
`do_version` and `exit_handler`.

Conventions of the embedding

* A run of `main` is a pair `(outcome, trace)`: how the process ended and the
  ordered list of calls it made to its collaborators (router, receptor,
  dispatcher, collector, libc).
* Every collaborator whose code lives in another translation unit is an oracle
  field of `Env`: the embedding is parametric in what those calls return.
* C strings are `List Char`; a `char *` that may be `NULL` is an
  `Option (List Char)`.
* `char` is the signed 8-bit type of the x86-64 ABI, `unsigned short` has 16
  bits; both conversions reduce modulo `2^w`.
* `getopt` and `atoi` are libc functions; they are modelled after POSIX / ISO C.
-/

namespace Relay

/-! ## C scalar conversions -/

/-- C string. -/
abbrev CStr := List Char

/-- Conversion `(char)n` for a signed 8-bit `char`. -/
def toChar (n : Int) : Int := (n + 128) % 256 - 128

/-- Conversion `(unsigned short)n`, 16 bits. -/
def toUShort (n : Int) : Int := n % 65536

/-! ## libc: `atoi` -/

/-- The `isspace` class of the C locale. -/
def isspace (c : Char) : Bool :=
  c.toNat = 32 || (9 ≤ c.toNat && c.toNat ≤ 13)

/-- Drop leading white space. -/
def skipSpace : CStr → CStr
  | [] => []
  | c :: cs => if isspace c then skipSpace cs else c :: cs

/-- Value of the longest run of decimal digits at the head of the string, on top of `acc`. -/
def digitsValue : Int → CStr → Int
  | acc, [] => acc
  | acc, c :: cs =>
    if c.isDigit then digitsValue (acc * 10 + ((c.toNat : Int) - 48)) cs else acc

/-- ISO C `atoi`: optional white space, optional sign, decimal digits; `0` when
there is no digit.  The mathematical value is returned. -/
def atoi (s : CStr) : Int :=
  match skipSpace s with
  | '-' :: cs => - digitsValue 0 cs
  | '+' :: cs => digitsValue 0 cs
  | cs => digitsValue 0 cs

/-! ## libc: `getopt` -/

/-- The variables `getopt` keeps between calls. -/
structure GetoptState where
  /-- index of the next element of `argv` to look at -/
  optind : Nat
  /-- unread option characters of the element `argv[optind]`; empty between elements -/
  nextchar : List Char
  /-- argument of the option returned last -/
  optarg : Option CStr
  deriving DecidableEq, Repr

/-- Look an option character up in an option string: `none` when it is not an
option, `some true` when it takes an argument. -/
def optLookup : List Char → Char → Option Bool
  | [], _ => none
  | o :: rest, c =>
    if o = c ∧ c ≠ ':' then some (rest.head? = some ':') else optLookup rest c

/-- Handle option character `c` of the element `argv[optind]`, `cs` being the
characters that follow it in the same element. -/
def getoptChar (argv : List CStr) (optstring : List Char) (st : GetoptState)
    (c : Char) (cs : List Char) : Option Char × GetoptState :=
  match optLookup optstring c with
  | none =>
    if cs = [] then (some '?', { optind := st.optind + 1, nextchar := [], optarg := st.optarg })
    else (some '?', { optind := st.optind, nextchar := cs, optarg := st.optarg })
  | some false =>
    if cs = [] then (some c, { optind := st.optind + 1, nextchar := [], optarg := st.optarg })
    else (some c, { optind := st.optind, nextchar := cs, optarg := st.optarg })
  | some true =>
    if cs ≠ [] then
      (some c, { optind := st.optind + 1, nextchar := [], optarg := some cs })
    else
      match argv.get? (st.optind + 1) with
      | some a => (some c, { optind := st.optind + 2, nextchar := [], optarg := some a })
      | none =>
        (some (if optstring.head? = some ':' then ':' else '?'),
          { optind := st.optind + 1, nextchar := [], optarg := st.optarg })

/-- One call of POSIX `getopt(argc, argv, optstring)`; `none` is the return value `-1`. -/
def getopt (argv : List CStr) (optstring : List Char) (st : GetoptState) :
    Option Char × GetoptState :=
  match st.nextchar with
  | c :: cs => getoptChar argv optstring st c cs
  | [] =>
    match argv.get? st.optind with
    | some ('-' :: c :: cs) =>
      if c = '-' ∧ cs = [] then
        (none, { optind := st.optind + 1, nextchar := [], optarg := st.optarg })
      else getoptChar argv optstring st c cs
    | _ => (none, st)

/-! ## Events, outcomes, environment -/

/-- Signal numbers `exit_handler` distinguishes. -/
inductive Sig
  | SIGTERM
  | SIGINT
  | SIGQUIT
  | other (n : Nat)
  deriving DecidableEq, Repr

/-- Output streams. -/
inductive Stream
  | stdout
  | stderr
  deriving DecidableEq, Repr

/-- Arguments of a formatted print. -/
inductive Arg
  | int (n : Int)
  | str (s : Option CStr)
  | strerror
  deriving DecidableEq, Repr

/-- Content of a slot of the `workers` array: what `malloc` left there, or a
pointer that was stored; `ptr 0` is `NULL`. -/
inductive Val
  | uninit
  | ptr (p : Nat)
  deriving DecidableEq, Repr

/-- Calls `main` makes, in the order it makes them. -/
inductive Event
  | fprintf (s : Stream) (fmt : String) (args : List Arg)
  | gethostname (ok : Bool)
  | router_readconfig (path : Option CStr) (ret : Int)
  | router_printconfig
  | signal (sig : Sig) (failed : Bool)
  | malloc (slots : Int) (failed : Bool)
  | bindlisten (port : Int) (ret : Int)
  | dispatch_addlistener (sock : Int) (ret : Int)
  | close (fd : Int)
  | dispatch_new (id : Int) (ret : Nat)
  | router_getservers
  | collector_start (workers : List Val)
  | sleep
  | router_shutdown
  | collector_stop
  | dispatch_shutdown (w : Val)
  | free
  deriving DecidableEq, Repr

/-- How a run ends. -/
inductive Outcome
  /-- `exit(code)` was called -/
  | exited (code : Int)
  /-- `main` returned `code` -/
  | returned (code : Int)
  /-- `main` sleeps in its wait loop for ever: `keep_running` is never cleared -/
  | waiting
  /-- a store outside the `workers` array: the behaviour is undefined.  (Also
  the value of the branches for an exhausted iteration bound, which
  `parseOptions_total` and `startWorkers_fuel` show are never taken.) -/
  | undefined
  deriving DecidableEq, Repr

/-- A run: outcome and trace. -/
abbrev Run := Outcome × List Event

/-- Put events in front of the trace of a run. -/
def Run.after (evs : List Event) (r : Run) : Run := (r.1, evs ++ r.2)

/-- What the collaborators of `main` answer. -/
structure Env where
  /-- the build-time macro `VERSION` -/
  VERSION : String
  /-- the build-time macro `GIT_VERSION` -/
  GIT_VERSION : String
  /-- host name stored by `gethostname`, `none` when it returns `< 0` -/
  gethostname : Option CStr
  /-- return value of `router_readconfig(path)` -/
  router_readconfig : Option CStr → Int
  /-- whether `signal(sig, exit_handler)` returns `SIG_ERR` -/
  signalFails : Sig → Bool
  /-- whether `malloc` of the workers array returns `NULL` -/
  mallocFails : Bool
  /-- return value of `bindlisten(port)` -/
  bindlisten : Int → Int
  /-- return value of `dispatch_addlistener(sock)` -/
  dispatch_addlistener : Int → Int
  /-- pointer returned by `dispatch_new(id)`, `0` for `NULL` -/
  dispatch_new : Int → Nat
  /-- the shutdown signal: `some (n, sig)` when `sig` is delivered after the wait
  loop has slept `n` times (`n = 0` also stands for a delivery between the
  installation of the handlers and the first test of `keep_running`), `none`
  when no signal is ever received -/
  shutdownSignal : Option (Nat × Sig)

/-! ## `relay.c` -/

open Event Stream in
/-- `do_version`: print the version line and `exit(0)`. -/
def do_version (env : Env) : Run :=
  (Outcome.exited 0,
    [fprintf stdout ("carbon-c-relay v" ++ env.VERSION ++ " (" ++ env.GIT_VERSION ++ ")\n") []])

open Event Stream in
/-- `do_usage`: print the usage text and `exit(exitcode)`. -/
def do_usage (exitcode : Int) : Run :=
  (Outcome.exited exitcode,
    [fprintf stdout "Usage: relay [-v] -f <config> [-p <port>] [-w <workers>]\n" [],
     fprintf stdout "\n" [],
     fprintf stdout "Options:\n" [],
     fprintf stdout "  -v  print version and exit\n" [],
     fprintf stdout "  -f  read <config> for clusters and routes\n" [],
     fprintf stdout "  -p  listen on <port> for connections, defaults to 2003\n" [],
     fprintf stdout "  -w  user <workers> worker threads, defaults to 16\n" []])

open Event Stream in
/-- `exit_handler`: name the signal, print it, clear `keep_running`.  The
second component is the new value of `keep_running`. -/
def exit_handler (sig : Sig) : List Event × Bool :=
  let signal : String :=
    match sig with
    | Sig.SIGTERM => "SIGTERM"
    | Sig.SIGINT => "SIGINT"
    | Sig.SIGQUIT => "SIGQUIT"
    | Sig.other _ => "unknown signal"
  ([fprintf stdout "caught %s, terminating...\n" [Arg.str (some signal.toList)]], false)

/-- The locals of `main` that option parsing sets. -/
structure Opts where
  workercnt : Int
  routes : Option CStr
  listenport : Int
  deriving DecidableEq, Repr

/-- Initial values of the locals: `workercnt = 16`, `routes = NULL`, `listenport = 2003`. -/
def Opts.initial : Opts := { workercnt := 16, routes := none, listenport := 2003 }

/-- The option string `main` hands to `getopt`. -/
def optstring : List Char := ":hvf:p:w:".toList

/-- State of `getopt` before its first call: `optind = 1`. -/
def GetoptState.initial : GetoptState := { optind := 1, nextchar := [], optarg := none }

open Event Stream in
/-- The loop `while ((ch = getopt(argc, argv, ":hvf:p:w:")) != -1) switch (ch) ...`.
The result is `Except.error run` when a branch ended the process, and
`Except.ok (locals, optind)` when `getopt` returned `-1`.  The first argument
bounds the number of `getopt` calls; `none` means the bound was too small. -/
def optionLoop (env : Env) (argv : List CStr) :
    Nat → GetoptState → Opts → Option (Except Run (Opts × Nat))
  | 0, _, _ => none
  | fuel + 1, st, o =>
    match getopt argv optstring st with
    | (none, st1) => some (Except.ok (o, st1.optind))
    | (some ch, st1) =>
      if ch = 'v' then
        some (Except.error (do_version env))
      else if ch = 'f' then
        optionLoop env argv fuel st1 { o with routes := st1.optarg }
      else if ch = 'p' then
        let listenport := toUShort (atoi (st1.optarg.getD []))
        if listenport = 0 then
          some (Except.error (Run.after
            [fprintf stderr "error: port needs to be a number >0\n" []] (do_usage 1)))
        else optionLoop env argv fuel st1 { o with listenport := listenport }
      else if ch = 'w' then
        let workercnt := toChar (atoi (st1.optarg.getD []))
        if workercnt ≤ 0 then
          some (Except.error (Run.after
            [fprintf stderr "error: workers needs to be a number >0\n" []] (do_usage 1)))
        else optionLoop env argv fuel st1 { o with workercnt := workercnt }
      else if ch = '?' ∨ ch = ':' then
        some (Except.error (do_usage 1))
      else
        some (Except.error (do_usage 0))

/-- A bound on the number of `getopt` calls a command line can cause: every
call that does not return `-1` uses up a character or an element of `argv`. -/
def optFuel (argv : List CStr) : Nat :=
  (argv.map List.length).sum + argv.length + 1

/-- Option parsing of `main` up to and including `if (optind == 1) do_usage(1)`. -/
def parseOptions (env : Env) (argv : List CStr) : Option (Except Run Opts) :=
  match optionLoop env argv (optFuel argv) GetoptState.initial Opts.initial with
  | none => none
  | some (Except.error r) => some (Except.error r)
  | some (Except.ok (o, optind)) =>
    if optind = 1 then some (Except.error (do_usage 1)) else some (Except.ok o)

/-- Store `v` at `workers[i]`; `none` when `i` is outside the array. -/
def writeSlot (workers : List Val) (i : Int) (v : Val) : Option (List Val) :=
  if 0 ≤ i ∧ i < workers.length then some (workers.set i.toNat v) else none

/-- How the loop that starts the workers ends. -/
inductive Started
  /-- left by `break` or by its condition, with the final `id` and array -/
  | left (id : Int) (workers : List Val)
  /-- a store outside the array -/
  | outOfBounds
  /-- the iteration bound was too small -/
  | fuel
  deriving DecidableEq, Repr

open Event Stream in
/-- The loop `for (id = 1; id <= workercnt; id++)` that starts the workers,
entered with the current `id`.  `id` is a `char`: `id++` wraps. -/
def startWorkers (env : Env) (workercnt : Int) :
    Nat → Int → List Val → List Event × Started
  | 0, _, _ => ([], Started.fuel)
  | fuel + 1, id, workers =>
    if id ≤ workercnt then
      let w := env.dispatch_new id
      match writeSlot workers (id - 1) (Val.ptr w) with
      | none => ([dispatch_new id w], Started.outOfBounds)
      | some workers1 =>
        if w = 0 then
          ([dispatch_new id w, fprintf stderr "failed to add worker %d\n" [Arg.int id]],
            Started.left id workers1)
        else
          let r := startWorkers env workercnt fuel (toChar (id + 1)) workers1
          (dispatch_new id w :: r.1, r.2)
    else ([], Started.left id workers)

open Event Stream in
/-- The shutdown sequence, from `"shutting down..."` to `return 0`.  The
counter of `for (id = 0; id < workercnt; id++)` stays below `workercnt`, so it
does not wrap, and it reads slots `0 .. workercnt - 1` of an array of
`workercnt + 1` slots. -/
def shutdown (workercnt : Int) (workers : List Val) : Run :=
  (Outcome.returned 0,
    [fprintf stdout "shutting down...\n" [], router_shutdown, collector_stop]
    ++ (List.range workercnt.toNat).map (fun id => dispatch_shutdown (workers.getD id Val.uninit))
    ++ [fprintf stdout "%d workers stopped\n" [Arg.int workercnt], free])

open Event in
/-- The wait loop `while (keep_running) sleep(1);` followed by the shutdown
sequence.  `keep_running` is the value of the flag when the loop is reached. -/
def waitLoop (env : Env) (keep_running : Bool) (workercnt : Int) (workers : List Val) : Run :=
  if keep_running then
    match env.shutdownSignal with
    | none => (Outcome.waiting, [])
    | some (n, sig) =>
      Run.after (List.replicate n sleep ++ (exit_handler sig).1) (shutdown workercnt workers)
  else shutdown workercnt workers

open Event Stream in
/-- Lines 181-200: start the workers, terminate the array, start the collector, wait. -/
def runWorkers (env : Env) (o : Opts) (workers : List Val) : Run :=
  Run.after [fprintf stderr "starting %d workers\n" [Arg.int o.workercnt]] <|
  match startWorkers env o.workercnt 256 1 workers with
  | (tr, Started.fuel) => (Outcome.undefined, tr)
  | (tr, Started.outOfBounds) => (Outcome.undefined, tr)
  | (tr, Started.left id workers1) =>
    Run.after tr <|
    match writeSlot workers1 (id - 1) (Val.ptr 0) with
    | none => (Outcome.undefined, [])
    | some workers2 =>
      if id ≤ o.workercnt then
        Run.after
          [fprintf stderr "shutting down due to errors\n" [],
           router_getservers, collector_start workers2]
          (waitLoop env false o.workercnt workers2)
      else
        Run.after [router_getservers, collector_start workers2]
          (waitLoop env true o.workercnt workers2)

open Event Stream in
/-- Lines 168-179: bind the port and register the listener. -/
def listen (env : Env) (o : Opts) (workers : List Val) : Run :=
  let sock := env.bindlisten o.listenport
  Run.after [bindlisten o.listenport sock] <|
  if sock < 0 then
    (Outcome.returned (-1),
      [fprintf stderr "failed to bind on port %d: %s\n" [Arg.int o.listenport, Arg.strerror]])
  else
    let r := env.dispatch_addlistener sock
    Run.after [dispatch_addlistener sock r] <|
    if r ≠ 0 then
      (Outcome.returned (-1), [close sock, fprintf stderr "failed to add listener\n" []])
    else
      Run.after [fprintf stdout "listening on port %u\n" [Arg.int o.listenport]]
        (runWorkers env o workers)

open Event Stream in
/-- Lines 147-166: install the three signal handlers and allocate the workers array. -/
def installHandlers (env : Env) (o : Opts) : Run :=
  Run.after [signal Sig.SIGINT (env.signalFails Sig.SIGINT)] <|
  if env.signalFails Sig.SIGINT then
    (Outcome.returned 1, [fprintf stderr "failed to create SIGINT handler: %s\n" [Arg.strerror]])
  else
  Run.after [signal Sig.SIGTERM (env.signalFails Sig.SIGTERM)] <|
  if env.signalFails Sig.SIGTERM then
    (Outcome.returned 1, [fprintf stderr "failed to create SIGTERM handler: %s\n" [Arg.strerror]])
  else
  Run.after [signal Sig.SIGQUIT (env.signalFails Sig.SIGQUIT)] <|
  if env.signalFails Sig.SIGQUIT then
    (Outcome.returned 1, [fprintf stderr "failed to create SIGQUIT handler: %s\n" [Arg.strerror]])
  else
  Run.after [malloc (o.workercnt + 1) env.mallocFails] <|
  if env.mallocFails then
    (Outcome.returned 1, [fprintf stderr "failed to allocate memory for workers\n" []])
  else
    listen env o (List.replicate (o.workercnt + 1).toNat Val.uninit)

open Event Stream in
/-- Lines 128-145: host name, banner, and the configuration. -/
def startup (env : Env) (o : Opts) : Run :=
  let relay_hostname : CStr := env.gethostname.getD "127.0.0.1".toList
  let rc := env.router_readconfig o.routes
  Run.after
    [gethostname env.gethostname.isSome,
     fprintf stdout "Starting carbon-c-relay v%s (%s)\n"
       [Arg.str (some env.VERSION.toList), Arg.str (some env.GIT_VERSION.toList)],
     fprintf stdout "configuration:\n" [],
     fprintf stdout "    relay hostname = %s\n" [Arg.str (some relay_hostname)],
     fprintf stdout "    listen port = %u\n" [Arg.int o.listenport],
     fprintf stdout "    workers = %d\n" [Arg.int o.workercnt],
     fprintf stdout "    routes configuration = %s\n" [Arg.str o.routes],
     fprintf stdout "\n" [],
     router_readconfig o.routes rc] <|
  if rc = 0 then
    (Outcome.returned 1, [fprintf stderr "failed to read configuration '%s'\n" [Arg.str o.routes]])
  else
    Run.after
      [fprintf stdout "parsed configuration follows:\n" [],
       router_printconfig,
       fprintf stdout "\n" []]
      (installHandlers env o)

/-- The function `main`, applied to the argument vector `argv` (`argv[0]` included). -/
def main (env : Env) (argv : List CStr) : Run :=
  match parseOptions env argv with
  | none => (Outcome.undefined, [])
  | some (Except.error r) => r
  | some (Except.ok o) => startup env o

/-! ## Classes of events -/

/-- A formatted print. -/
def Event.isPrint : Event → Bool
  | Event.fprintf _ _ _ => true
  | _ => false

/-- A call of `router_readconfig`. -/
def Event.isReadconfig : Event → Bool
  | Event.router_readconfig _ _ => true
  | _ => false

/-- A call of `bindlisten`. -/
def Event.isBindlisten : Event → Bool
  | Event.bindlisten _ _ => true
  | _ => false

/-- The start-up effects that come after the configuration is read: a signal
handler registration, `bindlisten`, `dispatch_addlistener`, `dispatch_new`,
`collector_start`. -/
def Event.isLaterStartupEffect : Event → Bool
  | Event.signal _ _ => true
  | Event.bindlisten _ _ => true
  | Event.dispatch_addlistener _ _ => true
  | Event.dispatch_new _ _ => true
  | Event.collector_start _ => true
  | _ => false

/-- The calls that start a listener, a worker or the collector:
`dispatch_addlistener`, `dispatch_new`, `collector_start`. -/
def Event.startsService : Event → Bool
  | Event.dispatch_addlistener _ _ => true
  | Event.dispatch_new _ _ => true
  | Event.collector_start _ => true
  | _ => false

/-- The events that can follow a successful `dispatch_addlistener`. -/
def Event.afterListen : Event → Bool
  | Event.fprintf _ _ _ => true
  | Event.dispatch_new _ _ => true
  | Event.router_getservers => true
  | Event.collector_start _ => true
  | Event.sleep => true
  | Event.router_shutdown => true
  | Event.collector_stop => true
  | Event.dispatch_shutdown _ => true
  | Event.free => true
  | _ => false

/-- The failures after which `main` gives up: `router_readconfig` returned 0,
`signal` returned `SIG_ERR`, `malloc` returned `NULL`, `bindlisten` returned a
negative value, `dispatch_addlistener` returned non-zero, `dispatch_new`
returned `NULL`. -/
def Event.isStartupFailure : Event → Bool
  | Event.router_readconfig _ ret => decide (ret = 0)
  | Event.signal _ failed => failed
  | Event.malloc _ failed => failed
  | Event.bindlisten _ ret => decide (ret < 0)
  | Event.dispatch_addlistener _ ret => decide (ret ≠ 0)
  | Event.dispatch_new _ ret => decide (ret = 0)
  | _ => false

/-- The two failures the specification names as ending the process:
`router_readconfig` returned 0, `bindlisten` returned a negative value. -/
def Event.isConfigOrBindFailure : Event → Bool
  | Event.router_readconfig _ ret => decide (ret = 0)
  | Event.bindlisten _ ret => decide (ret < 0)
  | _ => false

/-- The `dispatch_shutdown` calls. -/
def Event.isDispatchShutdown : Event → Bool
  | Event.dispatch_shutdown _ => true
  | _ => false

/-- The `dispatch_new` calls. -/
def Event.isDispatchNew : Event → Bool
  | Event.dispatch_new _ _ => true
  | _ => false

/-! ## Measure of the option loop -/

/-- Cost of the elements of `argv` from index `i` on: one per element and one per character. -/
def tailCost (argv : List CStr) (i : Nat) : Nat :=
  ((argv.drop i).map (fun a => a.length + 1)).sum

/-- What `getopt` has left to read in state `st`. -/
def getoptMeasure (argv : List CStr) (st : GetoptState) : Nat :=
  match st.nextchar with
  | [] => tailCost argv st.optind
  | _ :: cs => cs.length + 1 + tailCost argv (st.optind + 1)

/-! ## Concrete environments and command lines -/

/-- An environment in which every call succeeds and no signal arrives;
`dispatch_new(id)` returns the pointer `100 + id`. -/
def envUp : Env where
  VERSION := "0.1"
  GIT_VERSION := "unknown"
  gethostname := some "relay1".toList
  router_readconfig := fun _ => 1
  signalFails := fun _ => false
  mallocFails := false
  bindlisten := fun _ => 3
  dispatch_addlistener := fun _ => 0
  dispatch_new := fun id => 100 + id.toNat
  shutdownSignal := none

/-- As `envUp`, but `router_readconfig` returns 0. -/
def envConfigFails : Env := { envUp with router_readconfig := fun _ => 0 }

/-- As `envUp`, but `bindlisten` returns `-1`. -/
def envBindFails : Env := { envUp with bindlisten := fun _ => -1 }

/-- As `envUp`, but `signal(SIGTERM, ...)` returns `SIG_ERR`. -/
def envSignalFails : Env := { envUp with signalFails := fun s => decide (s = Sig.SIGTERM) }

/-- As `envUp`, but `malloc` returns `NULL`. -/
def envMallocFails : Env := { envUp with mallocFails := true }

/-- As `envUp`, but `dispatch_addlistener` returns `-1`. -/
def envListenerFails : Env := { envUp with dispatch_addlistener := fun _ => -1 }

/-- As `envUp`, but `dispatch_new(2)` returns `NULL`. -/
def envWorkerFails : Env :=
  { envUp with dispatch_new := fun id => if id = 2 then 0 else 100 + id.toNat }

/-- As `envUp`, with `SIGINT` delivered after two sleeps. -/
def envSignalled : Env := { envUp with shutdownSignal := some (2, Sig.SIGINT) }

/-- Command line `relay -f relay.conf`. -/
def argvConf : List CStr := ["relay".toList, "-f".toList, "relay.conf".toList]

/-- Command line `relay -f relay.conf -w 3`. -/
def argvThreeWorkers : List CStr :=
  ["relay".toList, "-f".toList, "relay.conf".toList, "-w".toList, "3".toList]

/-- Command line `relay -p 2003`: no `-f`. -/
def argvNoConfig : List CStr := ["relay".toList, "-p".toList, "2003".toList]

/-- Command line `relay -f relay.conf -w <n>`. -/
def argvWorkers (n : String) : List CStr :=
  ["relay".toList, "-f".toList, "relay.conf".toList, "-w".toList, n.toList]

/-- Command line `relay -f relay.conf -p <n>`. -/
def argvPort (n : String) : List CStr :=
  ["relay".toList, "-f".toList, "relay.conf".toList, "-p".toList, n.toList]

/-! ## Termination of the two bounded loops -/

theorem tailCost_get (argv : List CStr) :
    ∀ (i : Nat) (a : CStr), argv.get? i = some a →
      tailCost argv i = a.length + 1 + tailCost argv (i + 1) := by
  induction argv with
  | nil => intro i a h; simp at h
  | cons x xs ih =>
    intro i a h
    cases i with
    | zero =>
      simp at h
      subst h
      simp [tailCost]
    | succ j =>
      simp at h
      have := ih j a (by simpa using h)
      simpa [tailCost] using this

theorem tailCost_succ_le (argv : List CStr) :
    ∀ i : Nat, tailCost argv (i + 1) ≤ tailCost argv i := by
  induction argv with
  | nil => intro i; simp [tailCost]
  | cons x xs ih =>
    intro i
    cases i with
    | zero => simp [tailCost]
    | succ j => simpa [tailCost] using ih j

theorem tailCost_zero (argv : List CStr) :
    tailCost argv 0 = (argv.map List.length).sum + argv.length := by
  induction argv with
  | nil => simp [tailCost]
  | cons x xs ih =>
    simp only [tailCost, List.drop_zero, List.map_cons, List.sum_cons, List.length_cons] at ih ⊢
    omega

theorem getoptChar_measure (argv : List CStr) (os : List Char) (st : GetoptState)
    (c : Char) (cs : List Char) :
    getoptMeasure argv (getoptChar argv os st c cs).2 ≤
      cs.length + tailCost argv (st.optind + 1) := by
  have h2 : tailCost argv (st.optind + 2) ≤ tailCost argv (st.optind + 1) :=
    tailCost_succ_le argv (st.optind + 1)
  unfold getoptChar
  split
  · split_ifs with h
    · simp [getoptMeasure]
    · cases cs with
      | nil => exact absurd rfl h
      | cons d ds => simp [getoptMeasure]
  · split_ifs with h
    · simp [getoptMeasure]
    · cases cs with
      | nil => exact absurd rfl h
      | cons d ds => simp [getoptMeasure]
  · split_ifs with h
    · simp [getoptMeasure]
    · split
      · simp only [getoptMeasure]
        omega
      · simp [getoptMeasure]
    · split
      · simp only [getoptMeasure]
        omega
      · simp [getoptMeasure]

/-- Every call of `getopt` that does not return `-1` leaves less to read. -/
theorem getopt_decreases (argv : List CStr) (os : List Char) (st st1 : GetoptState)
    (ch : Char) (h : getopt argv os st = (some ch, st1)) :
    getoptMeasure argv st1 < getoptMeasure argv st := by
  unfold getopt at h
  split at h
  · rename_i c cs hn
    have := getoptChar_measure argv os st c cs
    rw [h] at this
    simp only [getoptMeasure, hn]
    simp only [getoptMeasure] at this
    omega
  · rename_i hn
    split at h
    · rename_i c cs hg
      split_ifs at h
      · simp at h
      · have := getoptChar_measure argv os st c cs
        rw [h] at this
        have hc := tailCost_get argv st.optind _ hg
        simp only [getoptMeasure, hn]
        simp only [getoptMeasure] at this
        simp only [List.length_cons] at hc
        omega
    · simp at h

/-- The option loop ends within the bound it is given, when that bound exceeds
what `getopt` has left to read. -/
theorem optionLoop_fuel (env : Env) (argv : List CStr) :
    ∀ (fuel : Nat) (st : GetoptState) (o : Opts),
      getoptMeasure argv st < fuel → optionLoop env argv fuel st o ≠ none := by
  intro fuel
  induction fuel with
  | zero => intro st o h; omega
  | succ n ih =>
    intro st o h
    unfold optionLoop
    split
    · simp
    · rename_i ch st1 hg
      have hd := getopt_decreases argv optstring st st1 ch hg
      dsimp only
      split_ifs <;>
        first
        | exact ih _ _ (by omega)
        | simp

/-- Option parsing always ends: the bound `optFuel argv` is never exhausted. -/
theorem parseOptions_total (env : Env) (argv : List CStr) : parseOptions env argv ≠ none := by
  have h0 : getoptMeasure argv GetoptState.initial < optFuel argv := by
    have h1 : tailCost argv 1 ≤ tailCost argv 0 := tailCost_succ_le argv 0
    have h2 := tailCost_zero argv
    simp only [getoptMeasure, GetoptState.initial, optFuel]
    omega
  have := optionLoop_fuel env argv (optFuel argv) GetoptState.initial Opts.initial h0
  unfold parseOptions
  split
  · rename_i h; exact absurd h this
  · simp
  · split_ifs <;> simp

theorem startWorkers_wrapped (env : Env) (workercnt : Int) (n : Nat) (workers : List Val) :
    (startWorkers env workercnt (n + 1) (-128) workers).2 ≠ Started.fuel := by
  unfold startWorkers
  dsimp only
  split_ifs <;> simp [writeSlot]

/-- The worker loop ends within 256 iterations: `id` counts up from 1, and the
iteration after `id = 127` stores outside the array. -/
theorem startWorkers_fuel (env : Env) (workercnt : Int) :
    ∀ (fuel : Nat) (id : Int) (workers : List Val),
      1 ≤ id → id ≤ 127 → 129 ≤ (fuel : Int) + id →
      (startWorkers env workercnt fuel id workers).2 ≠ Started.fuel := by
  intro fuel
  induction fuel with
  | zero => intro id workers h1 h2 h3; omega
  | succ n ih =>
    intro id workers h1 h2 h3
    unfold startWorkers
    dsimp only
    split_ifs with ha hb
    · split <;> simp
    · split
      · simp
      · dsimp only
        by_cases h127 : id = 127
        · subst h127
          have hn : n = (n - 1) + 1 := by omega
          rw [hn]
          exact startWorkers_wrapped env workercnt _ _
        · have hc : toChar (id + 1) = id + 1 := by
            unfold toChar
            omega
          rw [hc]
          exact ih _ _ (by omega) (by omega) (by push_cast at h3 ⊢; omega)
    · simp

/-- The bound `main` gives the worker loop is never exhausted. -/
theorem startWorkers_bound (env : Env) (workercnt : Int) (workers : List Val) :
    (startWorkers env workercnt 256 1 workers).2 ≠ Started.fuel :=
  startWorkers_fuel env workercnt 256 1 workers (by decide) (by decide) (by decide)

/-! ## Helper lemmas: traces and outcomes of the stages -/

@[simp] theorem Run.after_fst (evs : List Event) (r : Run) : (Run.after evs r).1 = r.1 := rfl

@[simp] theorem Run.after_snd (evs : List Event) (r : Run) :
    (Run.after evs r).2 = evs ++ r.2 := rfl

/-- A branch of the option loop that ends the process does so through `exit`
and has only printed. -/
theorem optionLoop_error (env : Env) (argv : List CStr) :
    ∀ (fuel : Nat) (st : GetoptState) (o : Opts) (r : Run),
      optionLoop env argv fuel st o = some (Except.error r) →
      (∃ c, r.1 = Outcome.exited c) ∧ r.2.all Event.isPrint = true := by
  intro fuel
  induction fuel with
  | zero => intro st o r h; simp [optionLoop] at h
  | succ n ih =>
    intro st o r h
    unfold optionLoop at h
    split at h
    · simp at h
    · dsimp only at h
      split_ifs at h <;>
        first
        | exact ih _ _ _ h
        | (simp only [Option.some.injEq, Except.error.injEq] at h
           subst h
           exact ⟨⟨_, rfl⟩, rfl⟩)

/-- Option parsing that ends the process does so through `exit` and has only printed. -/
theorem parseOptions_error (env : Env) (argv : List CStr) (r : Run)
    (h : parseOptions env argv = some (Except.error r)) :
    (∃ c, r.1 = Outcome.exited c) ∧ r.2.all Event.isPrint = true := by
  unfold parseOptions at h
  split at h
  · simp at h
  · rename_i r1 h1
    simp only [Option.some.injEq, Except.error.injEq] at h
    subst h
    exact optionLoop_error env argv _ _ _ _ h1
  · split_ifs at h
    · simp only [Option.some.injEq, Except.error.injEq] at h
      subst h
      exact ⟨⟨1, rfl⟩, rfl⟩
    · simp at h

theorem startWorkers_events (env : Env) (workercnt : Int) :
    ∀ (fuel : Nat) (id : Int) (workers : List Val),
      ∀ e ∈ (startWorkers env workercnt fuel id workers).1, e.afterListen = true := by
  intro fuel
  induction fuel with
  | zero => intro id workers e he; simp [startWorkers] at he
  | succ n ih =>
    intro id workers e he
    unfold startWorkers at he
    dsimp only at he
    split_ifs at he with h1 h2
    · split at he
      · simp only [List.mem_singleton] at he
        subst he; rfl
      · simp only [List.mem_cons, List.not_mem_nil, or_false] at he
        rcases he with h | h <;> subst h <;> rfl
    · split at he
      · simp only [List.mem_singleton] at he
        subst he; rfl
      · simp only [List.mem_cons] at he
        rcases he with h | h
        · subst h; rfl
        · exact ih _ _ e h
    · simp at he

theorem shutdown_events (workercnt : Int) (workers : List Val) :
    ∀ e ∈ (shutdown workercnt workers).2, e.afterListen = true := by
  intro e he
  simp only [shutdown, List.append_assoc, List.mem_append, List.mem_cons, List.mem_map,
    List.mem_range, List.mem_singleton, List.not_mem_nil, or_false] at he
  rcases he with (h | h | h) | ⟨i, _, h⟩ | h | h <;> subst h <;> rfl

theorem shutdown_outcome (workercnt : Int) (workers : List Val) :
    (shutdown workercnt workers).1 = Outcome.returned 0 := rfl

theorem exit_handler_events (sig : Sig) : ∀ e ∈ (exit_handler sig).1, e.afterListen = true := by
  intro e he
  simp [exit_handler] at he
  subst he; rfl

theorem waitLoop_events (env : Env) (k : Bool) (workercnt : Int) (workers : List Val) :
    ∀ e ∈ (waitLoop env k workercnt workers).2, e.afterListen = true := by
  intro e he
  unfold waitLoop at he
  split_ifs at he
  · split at he
    · simp at he
    · simp only [Run.after_snd, List.mem_append, List.mem_replicate] at he
      rcases he with (⟨_, h⟩ | h) | h
      · subst h; rfl
      · exact exit_handler_events _ e h
      · exact shutdown_events _ _ e h
  · exact shutdown_events _ _ e he

theorem runWorkers_events (env : Env) (o : Opts) (workers : List Val) :
    ∀ e ∈ (runWorkers env o workers).2, e.afterListen = true := by
  intro e he
  unfold runWorkers at he
  simp only [Run.after_snd, List.singleton_append, List.mem_cons] at he
  rcases he with h | he
  · subst h; rfl
  · split at he
    · rename_i tr h1
      have := startWorkers_events env o.workercnt 256 1 workers e
      rw [h1] at this
      exact this he
    · rename_i tr h1
      have := startWorkers_events env o.workercnt 256 1 workers e
      rw [h1] at this
      exact this he
    · rename_i tr id workers1 h1
      simp only [Run.after_snd, List.mem_append] at he
      rcases he with he | he
      · have := startWorkers_events env o.workercnt 256 1 workers e
        rw [h1] at this
        exact this he
      · split at he
        · simp at he
        · split_ifs at he
          · simp only [Run.after_snd, List.mem_append, List.mem_cons, List.not_mem_nil,
              or_false] at he
            rcases he with (h | h | h) | h
            · subst h; rfl
            · subst h; rfl
            · subst h; rfl
            · exact waitLoop_events _ _ _ _ e h
          · simp only [Run.after_snd, List.mem_append, List.mem_cons, List.not_mem_nil,
              or_false] at he
            rcases he with (h | h) | h
            · subst h; rfl
            · subst h; rfl
            · exact waitLoop_events _ _ _ _ e h

theorem afterListen_not_readconfig (e : Event) (h : e.afterListen = true) :
    e.isReadconfig = false := by
  cases e <;> first | rfl | simp [Event.afterListen] at h

theorem afterListen_not_bindlisten (e : Event) (h : e.afterListen = true) :
    e.isBindlisten = false := by
  cases e <;> first | rfl | simp [Event.afterListen] at h

theorem isPrint_not_readconfig (e : Event) (h : e.isPrint = true) :
    e.isReadconfig = false := by
  cases e <;> first | rfl | simp [Event.isPrint] at h

theorem isPrint_not_bindlisten (e : Event) (h : e.isPrint = true) :
    e.isBindlisten = false := by
  cases e <;> first | rfl | simp [Event.isPrint] at h

/-- No stage after the configuration is read calls `router_readconfig`. -/
theorem installHandlers_no_readconfig (env : Env) (o : Opts) :
    ∀ e ∈ (installHandlers env o).2, e.isReadconfig = false := by
  intro e he
  unfold installHandlers listen at he
  dsimp only at he
  split_ifs at he <;>
    simp only [Run.after_snd, List.mem_append, List.mem_cons, List.not_mem_nil, or_false,
      List.singleton_append] at he
  all_goals
    repeat
      first
      | exact afterListen_not_readconfig e (runWorkers_events _ _ _ e he)
      | (subst he; rfl)
      | (rcases he with he | he)

/-- When `bindlisten` succeeds, the only `bindlisten` event of the listening
stage and what follows carries that non-negative result. -/
theorem listen_bindlisten_event (env : Env) (o : Opts) (workers : List Val)
    (port r : Int) (h : Event.bindlisten port r ∈ (listen env o workers).2) :
    r = env.bindlisten o.listenport := by
  unfold listen at h
  dsimp only at h
  split_ifs at h <;>
    simp only [Run.after_snd, List.mem_append, List.mem_cons, List.not_mem_nil, or_false,
      List.singleton_append, Event.bindlisten.injEq, reduceCtorEq, false_or] at h
  · exact h.2
  · exact h.2
  · rcases h with h | h
    · exact h.2
    · have := afterListen_not_bindlisten _ (runWorkers_events _ _ _ _ h)
      simp [Event.isBindlisten] at this

/-- A failing `bindlisten` ends the listening stage with `return -1`, nothing started. -/
theorem listen_bind_failure (env : Env) (o : Opts) (workers : List Val)
    (h : env.bindlisten o.listenport < 0) :
    (listen env o workers).1 = Outcome.returned (-1) ∧
      ∀ e ∈ (listen env o workers).2, e.startsService = false := by
  unfold listen
  dsimp only
  rw [if_pos h]
  refine ⟨rfl, ?_⟩
  intro e he
  simp only [Run.after_snd, List.mem_append, List.mem_cons, List.not_mem_nil, or_false,
    List.singleton_append] at he
  rcases he with he | he <;> subst he <;> rfl

/-- A `bindlisten` event with a negative result in the trace of the handler
stage: the stage returns `-1` and starts nothing. -/
theorem installHandlers_bind_failure (env : Env) (o : Opts) (port r : Int)
    (h : Event.bindlisten port r ∈ (installHandlers env o).2) (hr : r < 0) :
    (installHandlers env o).1 = Outcome.returned (-1) ∧
      ∀ e ∈ (installHandlers env o).2, e.startsService = false := by
  unfold installHandlers at h ⊢
  split_ifs at h ⊢ <;>
    simp only [Run.after_snd, Run.after_fst, List.mem_append, List.mem_cons, List.not_mem_nil,
      or_false, List.singleton_append, reduceCtorEq, false_or] at h ⊢
  have hr2 := listen_bindlisten_event env o _ port r h
  rw [hr2] at hr
  have hl := listen_bind_failure env o (List.replicate (o.workercnt + 1).toNat Val.uninit) hr
  refine ⟨hl.1, ?_⟩
  intro e he
  rcases he with he | he | he | he | he
  · subst he; rfl
  · subst he; rfl
  · subst he; rfl
  · subst he; rfl
  · exact hl.2 e he

/-- When `router_readconfig` returns 0, `startup` returns 1 right after the call. -/
theorem startup_config_failure (env : Env) (o : Opts)
    (h : env.router_readconfig o.routes = 0) :
    (startup env o).1 = Outcome.returned 1 ∧
      ∀ e ∈ (startup env o).2, e.isLaterStartupEffect = false := by
  unfold startup
  dsimp only
  rw [if_pos h]
  refine ⟨rfl, ?_⟩
  intro e he
  simp only [Run.after_snd, List.mem_append, List.mem_cons, List.not_mem_nil, or_false] at he
  rcases he with (he | he | he | he | he | he | he | he | he) | he <;> subst he <;> rfl

/-- Every `router_readconfig` event of `startup` carries the oracle's answer for `routes`. -/
theorem startup_readconfig_event (env : Env) (o : Opts) (path : Option CStr) (r : Int)
    (h : Event.router_readconfig path r ∈ (startup env o).2) :
    r = env.router_readconfig o.routes := by
  unfold startup at h
  dsimp only at h
  split_ifs at h <;>
    simp only [Run.after_snd, List.mem_append, List.mem_cons, List.not_mem_nil, or_false,
      reduceCtorEq, false_or, Event.router_readconfig.injEq] at h
  · exact h.2
  · rcases h with h | h
    · exact h.2
    · have := installHandlers_no_readconfig env o _ h
      simp [Event.isReadconfig] at this

/-- A `bindlisten` event with a negative result in the trace of `startup`:
`startup` returns `-1` and starts nothing. -/
theorem startup_bind_failure (env : Env) (o : Opts) (port r : Int)
    (h : Event.bindlisten port r ∈ (startup env o).2) (hr : r < 0) :
    (startup env o).1 = Outcome.returned (-1) ∧
      ∀ e ∈ (startup env o).2, e.startsService = false := by
  unfold startup at h ⊢
  dsimp only at h ⊢
  split_ifs at h ⊢ <;>
    simp only [Run.after_snd, Run.after_fst, List.mem_append, List.mem_cons, List.not_mem_nil,
      or_false, reduceCtorEq, false_or] at h ⊢
  have hl := installHandlers_bind_failure env o port r h hr
  refine ⟨hl.1, ?_⟩
  intro e he
  rcases he with (he | he | he | he | he | he | he | he | he) | (he | he | he) | he
  all_goals first | exact hl.2 e he | (subst he; rfl)

/-- A trace of prints contains no `router_readconfig` and no `bindlisten` event. -/
theorem prints_no_call (tr : List Event) (h : tr.all Event.isPrint = true) (e : Event)
    (he : e ∈ tr) : e.isReadconfig = false ∧ e.isBindlisten = false := by
  rw [List.all_eq_true] at h
  exact ⟨isPrint_not_readconfig e (h e he), isPrint_not_bindlisten e (h e he)⟩

/-- When the worker loop is left with `id <= workercnt`, it was left by `break`:
the last `dispatch_new` returned `NULL`. -/
theorem startWorkers_left_by_break (env : Env) (workercnt : Int) :
    ∀ (fuel : Nat) (id : Int) (workers : List Val) (tr : List Event) (id1 : Int)
      (workers1 : List Val),
      startWorkers env workercnt fuel id workers = (tr, Started.left id1 workers1) →
      id1 ≤ workercnt → Event.dispatch_new id1 0 ∈ tr := by
  intro fuel
  induction fuel with
  | zero => intro id workers tr id1 workers1 h; simp [startWorkers] at h
  | succ n ih =>
    intro id workers tr id1 workers1 h hle
    unfold startWorkers at h
    dsimp only at h
    split_ifs at h with h1 h2
    · split at h
      · simp at h
      · simp only [Prod.mk.injEq, Started.left.injEq] at h
        obtain ⟨htr, hid, _⟩ := h
        subst htr; subst hid
        rw [h2]
        simp
    · split at h
      · simp at h
      · simp only [Prod.mk.injEq] at h
        obtain ⟨htr, hres⟩ := h
        subst htr
        have := ih (toChar (id + 1)) _ _ id1 workers1 (Prod.ext rfl hres) hle
        exact List.mem_cons_of_mem _ this
    · simp only [Prod.mk.injEq, Started.left.injEq] at h
      obtain ⟨_, hid, _⟩ := h
      subst hid
      exact absurd hle h1

/-- The worker stage returns without a signal only after a `dispatch_new` returned `NULL`. -/
theorem runWorkers_returns_only_on_failure (env : Env) (o : Opts) (workers : List Val)
    (c : Int) (hs : env.shutdownSignal = none)
    (h : (runWorkers env o workers).1 = Outcome.returned c) :
    ∃ id, Event.dispatch_new id 0 ∈ (runWorkers env o workers).2 := by
  unfold runWorkers at h ⊢
  simp only [Run.after_fst, Run.after_snd] at h ⊢
  split at h
  · simp at h
  · simp at h
  · rename_i tr id workers1 h1
    simp only [Run.after_fst, Run.after_snd] at h ⊢
    split at h
    · simp at h
    · split_ifs at h with h2
      · refine ⟨id, ?_⟩
        have := startWorkers_left_by_break env o.workercnt 256 1 workers tr id workers1 h1 h2
        exact List.mem_append_right _ (List.mem_append_left _ this)
      · simp [waitLoop, hs] at h

theorem listen_returns_only_on_failure (env : Env) (o : Opts) (workers : List Val)
    (c : Int) (hs : env.shutdownSignal = none)
    (h : (listen env o workers).1 = Outcome.returned c) :
    (listen env o workers).2.any Event.isStartupFailure = true := by
  unfold listen at h ⊢
  dsimp only at h ⊢
  split_ifs at h ⊢ with h1 h2
  · simp [Event.isStartupFailure, h1]
  · simp [Event.isStartupFailure, h2]
  · simp only [Run.after_fst] at h
    obtain ⟨id, hid⟩ := runWorkers_returns_only_on_failure env o workers c hs h
    simp only [Run.after_snd, List.any_append, Bool.or_eq_true, List.any_eq_true]
    exact Or.inr (Or.inr (Or.inr ⟨_, hid, by simp [Event.isStartupFailure]⟩))

theorem installHandlers_returns_only_on_failure (env : Env) (o : Opts)
    (c : Int) (hs : env.shutdownSignal = none)
    (h : (installHandlers env o).1 = Outcome.returned c) :
    (installHandlers env o).2.any Event.isStartupFailure = true := by
  unfold installHandlers at h ⊢
  split_ifs at h ⊢ with h1 h2 h3 h4
  · simp [Event.isStartupFailure, h1]
  · simp [Event.isStartupFailure, h2]
  · simp [Event.isStartupFailure, h3]
  · simp [Event.isStartupFailure, h4]
  · simp only [Run.after_fst] at h
    have := listen_returns_only_on_failure env o _ c hs h
    simp only [Run.after_snd, List.any_append, Bool.or_eq_true]
    exact Or.inr (Or.inr (Or.inr (Or.inr this)))

theorem startup_returns_only_on_failure (env : Env) (o : Opts)
    (c : Int) (hs : env.shutdownSignal = none)
    (h : (startup env o).1 = Outcome.returned c) :
    (startup env o).2.any Event.isStartupFailure = true := by
  unfold startup at h ⊢
  dsimp only at h ⊢
  split_ifs at h ⊢ with h1
  · simp [Event.isStartupFailure, h1]
  · simp only [Run.after_fst] at h
    have := installHandlers_returns_only_on_failure env o c hs h
    simp only [Run.after_snd, List.any_append, Bool.or_eq_true]
    exact Or.inr (Or.inr this)

theorem waitLoop_not_exited (env : Env) (k : Bool) (workercnt : Int) (workers : List Val)
    (c : Int) : (waitLoop env k workercnt workers).1 ≠ Outcome.exited c := by
  unfold waitLoop
  split_ifs
  · split <;> simp [shutdown]
  · simp [shutdown]

theorem runWorkers_not_exited (env : Env) (o : Opts) (workers : List Val) (c : Int) :
    (runWorkers env o workers).1 ≠ Outcome.exited c := by
  unfold runWorkers
  simp only [Run.after_fst]
  split
  · simp
  · simp
  · simp only [Run.after_fst]
    split
    · simp
    · split_ifs <;> simp only [Run.after_fst] <;> exact waitLoop_not_exited _ _ _ _ _

/-- Once option parsing is over, `main` never ends through `exit`. -/
theorem startup_not_exited (env : Env) (o : Opts) (c : Int) :
    (startup env o).1 ≠ Outcome.exited c := by
  unfold startup installHandlers listen
  dsimp only
  split_ifs <;> simp only [Run.after_fst] <;>
    first
    | exact runWorkers_not_exited _ _ _ _
    | simp

/-! ## The claims -/

/-- C1. Fail closed on configuration: in every run of `main` in which
`router_readconfig` returns 0, `main` returns 1 and the trace has no later
start-up effect: no `signal` registration, no `bindlisten`, no
`dispatch_addlistener`, no `dispatch_new`, no `collector_start`. -/
theorem main_fails_closed_on_configuration (env : Env) (argv : List CStr)
    (path : Option CStr)
    (h : Event.router_readconfig path 0 ∈ (main env argv).2) :
    (main env argv).1 = Outcome.returned 1 ∧
      ∀ e ∈ (main env argv).2, e.isLaterStartupEffect = false := by
  unfold main at h ⊢
  split at h
  · simp at h
  · rename_i r hp
    have := (prints_no_call r.2 (parseOptions_error env argv r hp).2 _ h).1
    simp [Event.isReadconfig] at this
  · rename_i o hp
    exact startup_config_failure env o (startup_readconfig_event env o path 0 h).symm

/-- C1, witness: `relay -f relay.conf` with a configuration that does not load. -/
theorem main_fails_closed_on_configuration_witness :
    Event.router_readconfig (some "relay.conf".toList) 0 ∈ (main envConfigFails argvConf).2 ∧
    (main envConfigFails argvConf).1 = Outcome.returned 1 ∧
      ∀ e ∈ (main envConfigFails argvConf).2, e.isLaterStartupEffect = false :=
  ⟨by decide,
    main_fails_closed_on_configuration envConfigFails argvConf (some "relay.conf".toList)
      (by decide)⟩

/-- C2, counterexample: four runs that get past option parsing, receive no
signal, load the configuration and do not fail in `bindlisten`, and yet end:
a failing `signal` registration and a failing allocation make `main` return 1,
a failing `dispatch_addlistener` makes it return `-1`, and a failing
`dispatch_new` makes it clear `keep_running` and return 0. -/
theorem main_ends_on_other_failures :
    (envSignalFails.shutdownSignal = none ∧
      (main envSignalFails argvConf).1 = Outcome.returned 1 ∧
      (main envSignalFails argvConf).2.any Event.isConfigOrBindFailure = false) ∧
    (envMallocFails.shutdownSignal = none ∧
      (main envMallocFails argvConf).1 = Outcome.returned 1 ∧
      (main envMallocFails argvConf).2.any Event.isConfigOrBindFailure = false) ∧
    (envListenerFails.shutdownSignal = none ∧
      (main envListenerFails argvConf).1 = Outcome.returned (-1) ∧
      (main envListenerFails argvConf).2.any Event.isConfigOrBindFailure = false) ∧
    (envWorkerFails.shutdownSignal = none ∧
      (main envWorkerFails argvConf).1 = Outcome.returned 0 ∧
      (main envWorkerFails argvConf).2.any Event.isConfigOrBindFailure = false) := by
  decide

/-- C2 (amended). In every run of `main` that gets past option parsing and in
which no shutdown signal is received, `main` returns only if one of its
start-up calls failed: `router_readconfig` returned 0, a `signal` registration
failed, the allocation of the workers array failed, `bindlisten` returned a
negative value, `dispatch_addlistener` returned non-zero, or a `dispatch_new`
returned `NULL`. -/
theorem main_returns_unsignalled_only_on_startup_failure (env : Env) (argv : List CStr)
    (o : Opts) (c : Int)
    (hp : parseOptions env argv = some (Except.ok o))
    (hs : env.shutdownSignal = none)
    (h : (main env argv).1 = Outcome.returned c) :
    (main env argv).2.any Event.isStartupFailure = true := by
  unfold main at h ⊢
  rw [hp] at h ⊢
  exact startup_returns_only_on_failure env o c hs h

/-- C2, witness: `relay -f relay.conf -w 3` where the second worker cannot be created. -/
theorem main_returns_unsignalled_only_on_startup_failure_witness :
    parseOptions envWorkerFails argvThreeWorkers =
      some (Except.ok { workercnt := 3, routes := some "relay.conf".toList, listenport := 2003 }) ∧
    envWorkerFails.shutdownSignal = none ∧
    (main envWorkerFails argvThreeWorkers).1 = Outcome.returned 0 ∧
    (main envWorkerFails argvThreeWorkers).2.any Event.isStartupFailure = true :=
  ⟨rfl, rfl, by decide,
    main_returns_unsignalled_only_on_startup_failure envWorkerFails argvThreeWorkers
      { workercnt := 3, routes := some "relay.conf".toList, listenport := 2003 } 0
      rfl rfl (by decide)⟩

/-- C3. In every run of `main` in which `bindlisten` returns a negative value,
`main` returns `-1` and the trace has no `dispatch_addlistener`, no
`dispatch_new` and no `collector_start`. -/
theorem main_bind_failure_starts_nothing (env : Env) (argv : List CStr) (port r : Int)
    (h : Event.bindlisten port r ∈ (main env argv).2) (hr : r < 0) :
    (main env argv).1 = Outcome.returned (-1) ∧
      ∀ e ∈ (main env argv).2, e.startsService = false := by
  unfold main at h ⊢
  split at h
  · simp at h
  · rename_i r1 hp
    have := (prints_no_call r1.2 (parseOptions_error env argv r1 hp).2 _ h).2
    simp [Event.isBindlisten] at this
  · rename_i o hp
    exact startup_bind_failure env o port r h hr

/-- C3, witness: `relay -f relay.conf` with a port that cannot be bound. -/
theorem main_bind_failure_starts_nothing_witness :
    Event.bindlisten 2003 (-1) ∈ (main envBindFails argvConf).2 ∧
    (main envBindFails argvConf).1 = Outcome.returned (-1) ∧
      ∀ e ∈ (main envBindFails argvConf).2, e.startsService = false :=
  ⟨by decide,
    main_bind_failure_starts_nothing envBindFails argvConf 2003 (-1) (by decide) (by decide)⟩

/-- C4, the code at a failing input: `relay -f relay.conf -w 3` where
`dispatch_new(1)` returns the dispatcher 101 and `dispatch_new(2)` returns
`NULL`.  The shutdown sequence is reached, `main` returns 0, and
`dispatch_shutdown` is called three times: on dispatcher 101, on `NULL`, and on
the content of `workers[2]`, a slot that was never written. -/
theorem main_shuts_down_null_and_unwritten_slot :
    (main envWorkerFails argvThreeWorkers).1 = Outcome.returned 0 ∧
    (main envWorkerFails argvThreeWorkers).2.filter Event.isDispatchNew =
      [Event.dispatch_new 1 101, Event.dispatch_new 2 0] ∧
    (main envWorkerFails argvThreeWorkers).2.filter Event.isDispatchShutdown =
      [Event.dispatch_shutdown (Val.ptr 101), Event.dispatch_shutdown (Val.ptr 0),
       Event.dispatch_shutdown Val.uninit] := by
  decide

/-- C5, the code at a failing input: for `relay -p 2003`, a command line
without `-f`, option parsing succeeds with `routes = NULL`, `main` calls
`router_readconfig(NULL)`, and it does not end through `exit`, whatever the
collaborators answer. -/
theorem main_without_config_option_reads_null (env : Env) :
    parseOptions env argvNoConfig =
      some (Except.ok { workercnt := 16, routes := none, listenport := 2003 }) ∧
    Event.router_readconfig none (env.router_readconfig none) ∈ (main env argvNoConfig).2 ∧
    ∀ c, (main env argvNoConfig).1 ≠ Outcome.exited c := by
  have hp : parseOptions env argvNoConfig =
      some (Except.ok { workercnt := 16, routes := none, listenport := 2003 }) := rfl
  refine ⟨hp, ?_, ?_⟩
  · unfold main
    rw [hp]
    simp [startup]
  · intro c
    unfold main
    rw [hp]
    exact startup_not_exited env _ c

/-- C6, the code at failing inputs.  `-w -200`: `atoi` yields `-200 <= 0`, the
option is accepted with 56 workers.  `-w 300`: `atoi` yields 300, the worker
count is 44.  `-w 256`: `atoi` yields `256 > 0`, the option is rejected with
`workers needs to be a number >0`.  With `-w -200` and every call succeeding,
`main` starts 56 workers. -/
theorem workers_option_is_truncated_before_the_check (env : Env) :
    (atoi "-200".toList = -200 ∧
      parseOptions env (argvWorkers "-200") =
        some (Except.ok
          { workercnt := 56, routes := some "relay.conf".toList, listenport := 2003 })) ∧
    (atoi "300".toList = 300 ∧
      parseOptions env (argvWorkers "300") =
        some (Except.ok
          { workercnt := 44, routes := some "relay.conf".toList, listenport := 2003 })) ∧
    (atoi "256".toList = 256 ∧
      parseOptions env (argvWorkers "256") =
        some (Except.error (Run.after
          [Event.fprintf Stream.stderr "error: workers needs to be a number >0\n" []]
          (do_usage 1)))) ∧
    ((main envUp (argvWorkers "-200")).2.filter Event.isDispatchNew).length = 56 :=
  ⟨⟨rfl, rfl⟩, ⟨rfl, rfl⟩, ⟨rfl, rfl⟩, by decide⟩

/-- C7, the code at failing inputs.  `-p -1`: `atoi` yields `-1 <= 0`, the
option is accepted with port 65535.  `-p 65537`: `atoi` yields 65537, the port
is 1.  `-p 65536`: `atoi` yields `65536 > 0`, the option is rejected with
`port needs to be a number >0`.  With `-p -1`, `main` calls `bindlisten(65535)`. -/
theorem port_option_is_truncated_before_the_check (env : Env) :
    (atoi "-1".toList = -1 ∧
      parseOptions env (argvPort "-1") =
        some (Except.ok
          { workercnt := 16, routes := some "relay.conf".toList, listenport := 65535 })) ∧
    (atoi "65537".toList = 65537 ∧
      parseOptions env (argvPort "65537") =
        some (Except.ok
          { workercnt := 16, routes := some "relay.conf".toList, listenport := 1 })) ∧
    (atoi "65536".toList = 65536 ∧
      parseOptions env (argvPort "65536") =
        some (Except.error (Run.after
          [Event.fprintf Stream.stderr "error: port needs to be a number >0\n" []]
          (do_usage 1)))) ∧
    Event.bindlisten 65535 3 ∈ (main envUp (argvPort "-1")).2 :=
  ⟨⟨rfl, rfl⟩, ⟨rfl, rfl⟩, ⟨rfl, rfl⟩, by decide⟩

end Relay
